import Mathlib

/-!
Verification of the stagehand-python repository against its specification.

The repository ships two source artifacts: a static demo storefront page
(`src/unnamed/part_000`, an HTML file with inline JavaScript handlers) and a
quickstart notebook.  The grounding-and-extraction engine described by the
specification is not present under `src/`, so its operations are modelled
from the specification's words; the demo-page handlers are embedded directly
from the inline JavaScript source.
-/

namespace DemoPage

/-- A product card's "Add to Cart" button area, as written in the HTML:
`data-product` attribute value, whether the button carries the
`add-to-cart` class, and whether it is `disabled`. -/
structure ProductButton where
  productId : String
  hasAddToCartClass : Bool
  disabled : Bool
deriving Repr, DecidableEq

/-- The six product cards of the demo page.  Products 1, 2, 4, 5, 6 have an
enabled button with class `add-to-cart`; product 3 (Out of Stock) has a
disabled button without that class. -/
def productButtons : List ProductButton :=
  [⟨"1", true, false⟩, ⟨"2", true, false⟩, ⟨"3", false, true⟩,
   ⟨"4", true, false⟩, ⟨"5", true, false⟩, ⟨"6", true, false⟩]

/-- The `data-product` ids of the buttons selected by
`document.querySelectorAll('.add-to-cart')`, i.e. those carrying the
`add-to-cart` class — the only buttons the click handler is attached to. -/
def addToCartProducts : List String :=
  (productButtons.filter (fun b => b.hasAddToCartClass)).map (fun b => b.productId)

/-- Mutable page state touched by the cart script: the `cart` array and the
text content of the `cart-icon` span. -/
structure CartState where
  cart : List String
  cartIconText : String
deriving Repr, DecidableEq

/-- Page state at load: `let cart = []` and the static markup
`<span class="cart-icon" id="cart-icon">Cart (0)</span>`. -/
def initialCartState : CartState :=
  ⟨[], "Cart (0)"⟩

/-- The `add-to-cart` click handler:
`cart.push(productId)` then
`cart-icon.textContent = 'Cart (' + cart.length + ')'`. -/
def clickAddToCart (productId : String) (st : CartState) : CartState :=
  let cart := st.cart ++ [productId]
  ⟨cart, "Cart (" ++ toString cart.length ++ ")"⟩

/-- A sequence of click events on add-to-cart buttons, applied in order. -/
def runClicks (clicks : List String) (st : CartState) : CartState :=
  clicks.foldl (fun s p => clickAddToCart p s) st

/-- Effect of one `submit` event on `newsletter-form`, as a function of the
current value of the `newsletter-email` input.  The handler always calls
`e.preventDefault()`; then `if (email)` (JavaScript string truthiness:
non-empty) shows the thank-you alert and clears the input. -/
structure SubmitEffect where
  defaultPrevented : Bool
  alertedThankYou : Bool
  emailValueAfter : String
deriving Repr, DecidableEq

/-- The `newsletter-form` submit handler from the inline script. -/
def submitNewsletter (emailValue : String) : SubmitEffect :=
  if emailValue ≠ "" then
    ⟨true, true, ""⟩
  else
    ⟨true, false, emailValue⟩

/-- The cart-icon text always displays the current cart length. -/
def iconConsistent (st : CartState) : Prop :=
  st.cartIconText = "Cart (" ++ toString st.cart.length ++ ")"

end DemoPage

namespace Stagehand

/-- Modelled from the spec: supported action kinds
`click|type|select|scroll|wait` of an ActionPlan (§3, §4.2). -/
inductive ActionKind
  | click
  | typeText
  | select
  | scroll
  | wait
deriving Repr, DecidableEq

/-- Modelled from the spec: kind-specific action arguments (§4.2): `type`
requires a string, `select` requires an option value or visible text;
`click`, `scroll` and `wait` take no payload. -/
inductive ActionArgs
  | noArgs
  | textArg (s : String)
  | optionArg (s : String)
deriving Repr, DecidableEq

/-- Modelled from the spec: an Element of a PageSnapshot (§3): stable
reference id derived from structural path + attribute fingerprint, role,
accessible name, value, and the option values/texts usable by `select`. -/
structure Element where
  ref : Nat
  role : String
  name : String
  value : String
  options : List String
deriving Repr, DecidableEq

/-- Modelled from the spec: a PageSnapshot (§3): ordered elements captured
at one instant, a generation id, and an `unsettled` flag. -/
structure PageSnapshot where
  elements : List Element
  generation : Nat
  unsettled : Bool
deriving Repr, DecidableEq

/-- Modelled from the spec: an ActionPlan (§3): target element reference id,
action kind, kind-specific arguments, and the snapshot generation it was
grounded against. -/
structure ActionPlan where
  ref : Nat
  kind : ActionKind
  args : ActionArgs
  generation : Nat
deriving Repr, DecidableEq

/-- Modelled from the spec: the error kinds of §7 that the modelled core can
surface; `selfHealExhausted` annotates the underlying error (§4.5). -/
inductive Err
  | snapshotTimeout
  | snapshotEmpty
  | groundingParseError
  | groundingNoMatch
  | extractionValidationError
  | elementNotFound
  | actionTimeout
  | selfHealExhausted (underlying : Err)
deriving Repr, DecidableEq

/-- Modelled from the spec: a raw node of the live page's
structural/accessibility representation (§4.1, §6): structural-path +
attribute fingerprint (from which the stable reference id is derived),
role, accessible name, value, text content, selectable options, whether
`locateByPath` on the live page fails for this node even though the tree
listed it (`not_found`, §6), and whether interacting with the node hangs
past the action timeout. -/
structure RawNode where
  fp : Nat
  role : String
  name : String
  value : String
  text : String
  options : List String
  detached : Bool
  hangs : Bool
deriving Repr, DecidableEq

/-- Modelled from the spec: the live page as seen through the browser
backend (§6): URL, current nodes, the time at which mutations quiet down
(settle), and whether the page responds before the hard ceiling. -/
structure Page where
  url : String
  nodes : List RawNode
  settleAfterMs : Nat
  responsive : Bool
deriving Repr, DecidableEq

/-- Modelled from the spec: recognized configuration options used by the
core (§6): settle timeout, action timeout, self-heal retry bound, and the
snapshot's maximum element count (§4.1). -/
structure Config where
  settleTimeoutMs : Nat
  actionTimeoutMs : Nat
  maxSelfHealRetries : Nat
  maxElements : Nat
deriving Repr, DecidableEq

/-- Modelled from the spec: default configuration — one self-heal attempt
by default (§4.5). -/
def defaultConfig : Config :=
  ⟨1000, 5000, 1, 100⟩

/-- Modelled from the spec: the fixed role allow-list of the snapshotter
(§4.1): interactive roles kept regardless of text content. -/
def roleAllowList : List String :=
  ["button", "link", "textbox", "searchbox", "combobox",
   "checkbox", "radio", "listbox", "option", "heading"]

/-- Modelled from the spec: a node qualifies for the snapshot when its role
is on the allow-list or it bears non-empty text (§4.1). -/
def qualifies (n : RawNode) : Bool :=
  roleAllowList.contains n.role || n.text ≠ ""

/-- Modelled from the spec: building a snapshot Element from a raw node;
the stable reference id is derived from the node fingerprint (§3). -/
def toElement (n : RawNode) : Element :=
  ⟨n.fp, n.role, n.name, n.value, n.options⟩

/-- Modelled from the spec: `capture(page) -> PageSnapshot` (§4.1).
Fails `snapshotTimeout` when the page is unresponsive past the hard
ceiling; keeps only qualifying nodes; fails `snapshotEmpty` when none
qualify; truncates to the maximum element count; waits for the settle
window up to the configured timeout and, on expiry, proceeds with the
result marked `unsettled` rather than failing. -/
def capture (cfg : Config) (page : Page) (gen : Nat) : Except Err PageSnapshot :=
  if !page.responsive then
    .error .snapshotTimeout
  else
    let qual := page.nodes.filter qualifies
    if qual.isEmpty then
      .error .snapshotEmpty
    else
      let settled := decide (page.settleAfterMs < cfg.settleTimeoutMs)
      .ok ⟨(qual.map toElement).take cfg.maxElements, gen, !settled⟩

/-- Modelled from the spec: a model-client reply to a grounding prompt
(§4.2): a malformed payload, an explicit report that no element matches, or
a `{ref, action, args}` proposal. -/
inductive ModelReply
  | malformed
  | noMatch
  | proposal (ref : Nat) (kind : ActionKind) (args : ActionArgs)
deriving Repr, DecidableEq

/-- Modelled from the spec: kind-specific argument validation (§4.2):
`type` requires a string, `select` requires a matched option value or
visible text of the target element; the remaining kinds take no payload. -/
def argsMatch (kind : ActionKind) (args : ActionArgs) (el : Element) : Bool :=
  match kind, args with
  | .click, .noArgs => true
  | .typeText, .textArg _ => true
  | .select, .optionArg s => el.options.contains s
  | .scroll, .noArgs => true
  | .wait, .noArgs => true
  | _, _ => false

/-- Modelled from the spec: validation of a model reply against the
snapshot (§4.2): the reply must be a proposal whose `ref` exists in the
snapshot and whose `args` type-match the kind; the resulting plan records
the snapshot generation. -/
def validateReply (snapshot : PageSnapshot) (r : ModelReply) : Option ActionPlan :=
  match r with
  | .proposal ref kind args =>
    match snapshot.elements.find? (fun e => e.ref == ref) with
    | some el =>
      if argsMatch kind args el then
        some ⟨ref, kind, args, snapshot.generation⟩
      else
        none
    | none => none
  | _ => none

/-- Classification of one model reply during grounding: a validated plan,
an explicit no-match report, or a malformed/ill-typed payload. -/
inductive ReplyOutcome
  | valid (plan : ActionPlan)
  | noMatchReported
  | invalid
deriving Repr, DecidableEq

/-- Classify one model reply against the snapshot (§4.2). -/
def classifyReply (snapshot : PageSnapshot) (r : ModelReply) : ReplyOutcome :=
  match r with
  | .noMatch => .noMatchReported
  | .malformed => .invalid
  | .proposal ref kind args =>
    match validateReply snapshot (.proposal ref kind args) with
    | some plan => .valid plan
    | none => .invalid

/-- Modelled from the spec:
`groundAction(instruction, snapshot, priorFailure?) -> ActionPlan` (§4.2).
The model client is abstracted as the stream of its replies, indexed by the
number of calls issued so far; the returned `Nat` is the call index after
this invocation.  A reply that fails parsing/validation triggers exactly
one re-prompt with a stricter formatting instruction before
`groundingParseError` surfaces; an explicit `noMatch` surfaces
`groundingNoMatch` immediately with no retry. -/
def groundAction (instruction : String) (snapshot : PageSnapshot)
    (priorFailure : Option Err) (model : Nat → ModelReply) (i : Nat) :
    Except Err ActionPlan × Nat :=
  match classifyReply snapshot (model i) with
  | .valid plan => (.ok plan, i + 1)
  | .noMatchReported => (.error .groundingNoMatch, i + 1)
  | .invalid =>
    match classifyReply snapshot (model (i + 1)) with
    | .valid plan => (.ok plan, i + 2)
    | .noMatchReported => (.error .groundingNoMatch, i + 2)
    | .invalid => (.error .groundingParseError, i + 2)

/-- Modelled from the spec: the outcome of a successful execution (§4.4):
whether the post-action settle window expired (`unsettled`), which is not
an error. -/
structure ExecutionResult where
  unsettled : Bool
deriving Repr, DecidableEq

/-- Modelled from the spec: `execute(plan, page) -> ExecutionResult`
(§4.4).  Re-resolves `plan.ref` against the live page by the structural
fingerprint that produced it; `elementNotFound` when re-resolution fails
(recoverable by self-healing), `actionTimeout` when the interaction hangs
(not recoverable); otherwise succeeds, annotating whether the post-action
settle window expired. -/
def execute (cfg : Config) (plan : ActionPlan) (page : Page) :
    Except Err ExecutionResult :=
  match page.nodes.find? (fun n => n.fp == plan.ref) with
  | none => .error .elementNotFound
  | some n =>
    if n.detached then
      .error .elementNotFound
    else if n.hangs then
      .error .actionTimeout
    else
      .ok ⟨!decide (page.settleAfterMs < cfg.settleTimeoutMs)⟩

/-- Modelled from the spec: a field type of a schema descriptor (§4.3). -/
inductive FieldType
  | stringTy
  | intTy
deriving Repr, DecidableEq

/-- Modelled from the spec: a schema descriptor is the list of required
fields with their types (§3, §4.3). -/
abbrev Schema := List (String × FieldType)

/-- Modelled from the spec: an untyped field value of a model completion,
checked against the schema before any use (§9). -/
inductive FieldVal
  | strVal (s : String)
  | intVal (n : Int)
deriving Repr, DecidableEq

/-- Modelled from the spec: a model completion for an extraction request —
an unvalidated payload of named field values (§4.3, §9). -/
abbrev Payload := List (String × FieldVal)

/-- Modelled from the spec: does a field value have the schema's type? -/
def fieldTypeMatches : FieldVal → FieldType → Bool
  | .strVal _, .stringTy => true
  | .intVal _, .intTy => true
  | _, _ => false

/-- First value bound to `name` in the payload, if any. -/
def lookupField (p : Payload) (name : String) : Option FieldVal :=
  (p.find? (fun kv => kv.1 == name)).map (fun kv => kv.2)

/-- Modelled from the spec: field-by-field validation (§4.3): a required
field must be present with the declared type; a missing required field is
always a validation failure, never silently defaulted. -/
def validateField (p : Payload) (f : String × FieldType) : Bool :=
  match lookupField p f.1 with
  | some v => fieldTypeMatches v f.2
  | none => false

/-- Modelled from the spec: `validate(value, schema)` of the schema
validator (§6): every schema field validates. -/
def validatePayload (p : Payload) (schema : Schema) : Bool :=
  schema.all (validateField p)

/-- Modelled from the spec:
`extract(query, snapshot, schema) -> ExtractionResult` (§4.3).  The model
client is abstracted as its reply stream indexed by call count.  Validates
the completion field-by-field; on failure retries once with the validation
error fed back; a second failure surfaces `extractionValidationError`.
A returned payload always validates fully against the schema. -/
def extract (query : String) (snapshot : PageSnapshot) (schema : Schema)
    (model : Nat → Payload) (i : Nat) : Except Err Payload × Nat :=
  let r0 := model i
  if validatePayload r0 schema then
    (.ok r0, i + 1)
  else
    let r1 := model (i + 1)
    if validatePayload r1 schema then
      (.ok r1, i + 2)
    else
      (.error .extractionValidationError, i + 2)

/-- Modelled from the spec: a cache key — page signature and instruction
text (§3). -/
abbrev CacheKey := String × String

/-- Modelled from the spec: a CacheEntry (§3): the cached ActionPlan with
hit count and last-validated timestamp. -/
structure CacheEntry where
  plan : ActionPlan
  hits : Nat
  lastValidated : Nat
deriving Repr, DecidableEq

/-- Modelled from the spec: the session's cache store, keyed by
(page signature, instruction text) (§3). -/
abbrev CacheStore := List (CacheKey × CacheEntry)

/-- Modelled from the spec: a coarse structural hash of the page's
qualifying nodes (§3; the exact function is an open question of the spec,
left as one concrete choice here). -/
def structuralHash (page : Page) : Nat :=
  (page.nodes.filter qualifies).foldl
    (fun h n => (h * 31 + n.fp + n.role.length) % 1000003) 7

/-- Modelled from the spec: page signature = page URL plus a coarse
structural hash of the snapshot (§3). -/
def pageSignature (page : Page) : String :=
  page.url ++ "#" ++ toString (structuralHash page)

/-- Lookup in the cache store by key. -/
def cacheLookup (c : CacheStore) (k : CacheKey) : Option CacheEntry :=
  (c.find? (fun kv => kv.1 == k)).map (fun kv => kv.2)

/-- Insert or replace the entry at key `k`. -/
def cacheInsert (c : CacheStore) (k : CacheKey) (e : CacheEntry) : CacheStore :=
  (k, e) :: c.filter (fun kv => !(kv.1 == k))

/-- Invalidate (remove) the entry at key `k`. -/
def cacheRemove (c : CacheStore) (k : CacheKey) : CacheStore :=
  c.filter (fun kv => !(kv.1 == k))

/-- Modelled from the spec: one slow-path round (§4.5): take a snapshot,
ground the instruction against it (with optional prior-failure context),
and execute the grounded plan against the live page.  Returns the outcome
and the model-client call index after the round. -/
def groundAndExecute (cfg : Config) (instruction : String)
    (priorFailure : Option Err) (page : Page) (model : Nat → ModelReply)
    (i : Nat) (gen : Nat) : Except Err (ActionPlan × ExecutionResult) × Nat :=
  match capture cfg page gen with
  | .error e => (.error e, i)
  | .ok snap =>
    match groundAction instruction snap priorFailure model i with
    | (.error e, i') => (.error e, i')
    | (.ok plan, i') =>
      match execute cfg plan page with
      | .error e => (.error e, i')
      | .ok res => (.ok (plan, res), i')

/-- Modelled from the spec: the bounded self-healing loop (§4.5, §9): after
an `elementNotFound`, take a fresh snapshot, re-ground with the failure as
prior context, and execute again, at most `budget` times; when the budget
is exhausted the underlying error surfaces annotated as
`selfHealExhausted`.  Returns (outcome, next call index, grounding
attempts made by the loop). -/
def selfHeal (cfg : Config) (instruction : String) (page : Page)
    (model : Nat → ModelReply) (underlying : Err) :
    Nat → Nat → Nat → Except Err (ActionPlan × ExecutionResult) × Nat × Nat
  | 0, i, _gen => (.error (.selfHealExhausted underlying), i, 0)
  | budget + 1, i, gen =>
    match groundAndExecute cfg instruction (some underlying) page model i gen with
    | (.ok r, i') => (.ok r, i', 1)
    | (.error .elementNotFound, i') =>
      let rest := selfHeal cfg instruction page model .elementNotFound budget i' (gen + 1)
      (rest.1, rest.2.1, rest.2.2 + 1)
    | (.error e, i') => (.error e, i', 1)

/-- Modelled from the spec: the observable outcome of one `resolve` call:
the result, the cache store after the call, the model-client call index
after the call, and how many grounding attempts the call made. -/
structure ResolveOutcome where
  result : Except Err (ActionPlan × ExecutionResult)
  cache : CacheStore
  nextCall : Nat
  groundingAttempts : Nat
deriving Repr

/-- Modelled from the spec: the hit path of `resolve` (§4.5): attempt
`execute` on the cached plan directly, skipping grounding.  On success the
entry is refreshed (hit count, last-validated timestamp).  On
`elementNotFound`, the entry is invalidated and the bounded self-heal
runs; on its success the entry is replaced.  Other execution errors
surface directly. -/
def resolveHit (cfg : Config) (cache : CacheStore) (instruction : String)
    (page : Page) (model : Nat → ModelReply) (i : Nat) (now : Nat)
    (gen : Nat) (entry : CacheEntry) : ResolveOutcome :=
  match execute cfg entry.plan page with
  | .ok res =>
    ⟨.ok (entry.plan, res),
     cacheInsert cache (pageSignature page, instruction)
       ⟨entry.plan, entry.hits + 1, now⟩, i, 0⟩
  | .error .elementNotFound =>
    match selfHeal cfg instruction page model .elementNotFound
        cfg.maxSelfHealRetries i gen with
    | (.ok (plan, er), i', a) =>
      ⟨.ok (plan, er),
       cacheInsert (cacheRemove cache (pageSignature page, instruction))
         (pageSignature page, instruction) ⟨plan, 0, now⟩, i', a⟩
    | (.error e, i', a) =>
      ⟨.error e, cacheRemove cache (pageSignature page, instruction), i', a⟩
  | .error e => ⟨.error e, cache, i, 0⟩

/-- Modelled from the spec: the miss path of `resolve` (§4.5): ground
fresh and store the new entry only after a successful execution; a fresh
plan failing with `elementNotFound` gets the bounded self-heal; on failure
the cache is left exactly as it was found. -/
def resolveMiss (cfg : Config) (cache : CacheStore) (instruction : String)
    (page : Page) (model : Nat → ModelReply) (i : Nat) (now : Nat)
    (gen : Nat) : ResolveOutcome :=
  match groundAndExecute cfg instruction none page model i gen with
  | (.ok (plan, er), i') =>
    ⟨.ok (plan, er),
     cacheInsert cache (pageSignature page, instruction) ⟨plan, 0, now⟩, i', 1⟩
  | (.error .elementNotFound, i') =>
    match selfHeal cfg instruction page model .elementNotFound
        cfg.maxSelfHealRetries i' (gen + 1) with
    | (.ok (plan, er), i'', a) =>
      ⟨.ok (plan, er),
       cacheInsert cache (pageSignature page, instruction) ⟨plan, 0, now⟩,
       i'', a + 1⟩
    | (.error e, i'', a) => ⟨.error e, cache, i'', a + 1⟩
  | (.error e, i') => ⟨.error e, cache, i', 1⟩

/-- Modelled from the spec: `resolve(instruction, page) -> ActionPlan`
(§4.5).  Computes the page signature and looks up (signature, instruction)
in the cache, dispatching to the hit or miss path. -/
def resolve (cfg : Config) (cache : CacheStore) (instruction : String)
    (page : Page) (model : Nat → ModelReply) (i : Nat) (now : Nat)
    (gen : Nat) : ResolveOutcome :=
  match cacheLookup cache (pageSignature page, instruction) with
  | some entry => resolveHit cfg cache instruction page model i now gen entry
  | none => resolveMiss cfg cache instruction page model i now gen

end Stagehand

namespace DemoPage

theorem runClicks_nil (st : CartState) : runClicks [] st = st :=
  rfl

theorem runClicks_cons (c : String) (cs : List String) (st : CartState) :
    runClicks (c :: cs) st = runClicks cs (clickAddToCart c st) :=
  rfl

theorem clickAddToCart_cart (p : String) (st : CartState) :
    (clickAddToCart p st).cart = st.cart ++ [p] :=
  rfl

theorem clickAddToCart_consistent (p : String) (st : CartState) :
    iconConsistent (clickAddToCart p st) :=
  rfl

theorem runClicks_cart (clicks : List String) (st : CartState) :
    (runClicks clicks st).cart = st.cart ++ clicks := by
  induction clicks generalizing st with
  | nil => simp [runClicks_nil]
  | cons c cs ih =>
    rw [runClicks_cons, ih, clickAddToCart_cart, List.append_assoc]
    rfl

theorem runClicks_consistent (clicks : List String) (st : CartState)
    (h : iconConsistent st) : iconConsistent (runClicks clicks st) := by
  induction clicks generalizing st with
  | nil => exact h
  | cons c cs ih => exact ih (clickAddToCart c st) (clickAddToCart_consistent c st)

end DemoPage

/-- Claim C9: on the demo page, each click on an `add-to-cart` button
appends exactly one product id to the cart and rewrites the cart-icon text
to "Cart (n)" with n the new cart length; after any sequence of k such
clicks starting from the empty cart, the icon reads "Cart (k)", and since
product 3's button lacks the `add-to-cart` class, id "3" is never in the
cart. -/
theorem demo_cart_clicks_spec (clicks : List String)
    (h : ∀ p ∈ clicks, p ∈ DemoPage.addToCartProducts) :
    (∀ p st, (DemoPage.clickAddToCart p st).cart = st.cart ++ [p] ∧
      (DemoPage.clickAddToCart p st).cartIconText
        = "Cart (" ++ toString (st.cart.length + 1) ++ ")") ∧
    (DemoPage.runClicks clicks DemoPage.initialCartState).cart.length
      = clicks.length ∧
    (DemoPage.runClicks clicks DemoPage.initialCartState).cartIconText
      = "Cart (" ++ toString clicks.length ++ ")" ∧
    "3" ∉ (DemoPage.runClicks clicks DemoPage.initialCartState).cart := by
  have hcart : (DemoPage.runClicks clicks DemoPage.initialCartState).cart
      = clicks := by
    rw [DemoPage.runClicks_cart]
    rfl
  refine ⟨?_, ?_, ?_, ?_⟩
  · intro p st
    refine ⟨rfl, ?_⟩
    have := DemoPage.clickAddToCart_consistent p st
    rw [DemoPage.iconConsistent, DemoPage.clickAddToCart_cart] at this
    simpa using this
  · rw [hcart]
  · have := DemoPage.runClicks_consistent clicks DemoPage.initialCartState rfl
    rw [DemoPage.iconConsistent, hcart] at this
    exact this
  · rw [hcart]
    intro hmem
    have h3 := h _ hmem
    revert h3
    decide

/-- Witness for C9: clicking the add-to-cart buttons of products 1, 5 and
1 again leaves the icon reading "Cart (3)" and no id "3" in the cart. -/
theorem demo_cart_clicks_spec_witness :
    (DemoPage.runClicks ["1", "5", "1"] DemoPage.initialCartState).cartIconText
      = "Cart (3)" ∧
    "3" ∉ (DemoPage.runClicks ["1", "5", "1"] DemoPage.initialCartState).cart := by
  have t := demo_cart_clicks_spec ["1", "5", "1"] (by decide)
  exact ⟨t.2.2.1, t.2.2.2⟩

/-- Claim C10: every submit of `newsletter-form` prevents the default
browser submission; a non-empty `newsletter-email` value is cleared after
the thank-you alert, while an empty value is left unchanged (and no alert
is shown). -/
theorem demo_newsletter_submit_spec (v : String) :
    (DemoPage.submitNewsletter v).defaultPrevented = true ∧
    (v ≠ "" → (DemoPage.submitNewsletter v).alertedThankYou = true ∧
      (DemoPage.submitNewsletter v).emailValueAfter = "") ∧
    (v = "" → (DemoPage.submitNewsletter v).alertedThankYou = false ∧
      (DemoPage.submitNewsletter v).emailValueAfter = v) := by
  unfold DemoPage.submitNewsletter
  by_cases h : v = "" <;> simp [h]

/-- Witness for C10: a concrete non-empty email is cleared and the empty
value is preserved. -/
theorem demo_newsletter_submit_spec_witness :
    ((DemoPage.submitNewsletter "user@techstore.test").emailValueAfter = ""
      ∧ (DemoPage.submitNewsletter "").emailValueAfter = "") := by
  refine ⟨(demo_newsletter_submit_spec "user@techstore.test").2.1 ?_ |>.2, ?_⟩
  · intro h
    exact absurd h (by decide)
  · exact ((demo_newsletter_submit_spec "").2.2 rfl).2

namespace Stagehand

theorem validateReply_mem (s : PageSnapshot) (r : ModelReply)
    (plan : ActionPlan) (h : validateReply s r = some plan) :
    plan.ref ∈ s.elements.map Element.ref ∧ plan.generation = s.generation := by
  cases r with
  | malformed => simp [validateReply] at h
  | noMatch => simp [validateReply] at h
  | proposal ref kind args =>
    simp only [validateReply] at h
    cases hf : s.elements.find? (fun e => e.ref == ref) with
    | none => rw [hf] at h; simp at h
    | some el =>
      rw [hf] at h
      by_cases ha : argsMatch kind args el
      · simp only [ha, if_true, Option.some.injEq] at h
        have hmem := List.mem_of_find?_eq_some hf
        have hrefeq : el.ref = ref := by
          have := List.find?_some hf
          exact eq_of_beq this
        rw [← h]
        exact ⟨List.mem_map.mpr ⟨el, hmem, hrefeq⟩, rfl⟩
      · simp [ha] at h

theorem classifyReply_valid (s : PageSnapshot) (r : ModelReply)
    (plan : ActionPlan) (h : classifyReply s r = .valid plan) :
    validateReply s r = some plan := by
  cases r with
  | malformed => simp [classifyReply] at h
  | noMatch => simp [classifyReply] at h
  | proposal ref kind args =>
    simp only [classifyReply] at h
    cases hv : validateReply s (.proposal ref kind args) with
    | none => rw [hv] at h; simp at h
    | some p =>
      rw [hv] at h
      simp only [ReplyOutcome.valid.injEq] at h
      subst h
      rfl

end Stagehand

/-- Claim C1: every ActionPlan returned by groundAction has its target
reference id among the element ids of the snapshot it was grounded
against, and records that snapshot's generation. -/
theorem grounding_ref_in_snapshot (instruction : String)
    (snapshot : Stagehand.PageSnapshot) (priorFailure : Option Stagehand.Err)
    (model : Nat → Stagehand.ModelReply) (i n : Nat)
    (plan : Stagehand.ActionPlan)
    (h : Stagehand.groundAction instruction snapshot priorFailure model i
      = (.ok plan, n)) :
    plan.ref ∈ snapshot.elements.map Stagehand.Element.ref ∧
    plan.generation = snapshot.generation := by
  unfold Stagehand.groundAction at h
  cases h1 : Stagehand.classifyReply snapshot (model i) with
  | valid p =>
    rw [h1] at h
    simp at h
    obtain ⟨hp, -⟩ := h
    subst hp
    exact Stagehand.validateReply_mem _ _ _ (Stagehand.classifyReply_valid _ _ _ h1)
  | noMatchReported => rw [h1] at h; simp at h
  | invalid =>
    rw [h1] at h
    cases h2 : Stagehand.classifyReply snapshot (model (i + 1)) with
    | valid p =>
      rw [h2] at h
      simp at h
      obtain ⟨hp, -⟩ := h
      subst hp
      exact Stagehand.validateReply_mem _ _ _ (Stagehand.classifyReply_valid _ _ _ h2)
    | noMatchReported => rw [h2] at h; simp at h
    | invalid => rw [h2] at h; simp at h

/-- Witness for C1: a concrete snapshot with one element of id 7 and a
model proposing a click on it. -/
theorem grounding_ref_in_snapshot_witness :
    (⟨7, Stagehand.ActionKind.click, Stagehand.ActionArgs.noArgs, 4⟩ :
        Stagehand.ActionPlan).ref ∈
      (⟨[⟨7, "button", "Login", "", []⟩], 4, false⟩ :
        Stagehand.PageSnapshot).elements.map Stagehand.Element.ref := by
  have t := grounding_ref_in_snapshot "click the login button"
    ⟨[⟨7, "button", "Login", "", []⟩], 4, false⟩ none
    (fun _ => .proposal 7 .click .noArgs) 0 1
    ⟨7, .click, .noArgs, 4⟩ rfl
  exact t.1

/-- Claim C6: grounding failure policy: an explicit no-match reply
surfaces `groundingNoMatch` immediately, with no retry and one model call;
a reply failing parsing/validation is re-prompted exactly once (the call
ends at index i+2), and whenever `groundingParseError` surfaces, exactly
one internal re-prompt has happened; no call of groundAction ever issues
more than two model-client calls. -/
theorem grounding_retry_policy (instruction : String)
    (snapshot : Stagehand.PageSnapshot) (priorFailure : Option Stagehand.Err)
    (model : Nat → Stagehand.ModelReply) (i : Nat) :
    (model i = .noMatch →
      Stagehand.groundAction instruction snapshot priorFailure model i
        = (.error .groundingNoMatch, i + 1)) ∧
    (Stagehand.classifyReply snapshot (model i) = .invalid →
      (Stagehand.groundAction instruction snapshot priorFailure model i).2
        = i + 2) ∧
    ((Stagehand.groundAction instruction snapshot priorFailure model i).1
        = .error .groundingParseError →
      (Stagehand.groundAction instruction snapshot priorFailure model i).2
        = i + 2) ∧
    (Stagehand.groundAction instruction snapshot priorFailure model i).2
      ≤ i + 2 := by
  refine ⟨?_, ?_, ?_, ?_⟩
  · intro h
    unfold Stagehand.groundAction
    rw [h]
    rfl
  · intro h
    unfold Stagehand.groundAction
    rw [h]
    cases h2 : Stagehand.classifyReply snapshot (model (i + 1)) <;> rfl
  · intro h
    unfold Stagehand.groundAction at h ⊢
    cases h1 : Stagehand.classifyReply snapshot (model i) with
    | valid p => rw [h1] at h; simp at h
    | noMatchReported => rw [h1] at h; simp at h
    | invalid =>
      cases h2 : Stagehand.classifyReply snapshot (model (i + 1)) <;> rfl
  · unfold Stagehand.groundAction
    cases h1 : Stagehand.classifyReply snapshot (model i) with
    | valid p => exact Nat.le_succ _
    | noMatchReported => exact Nat.le_succ _
    | invalid =>
      cases h2 : Stagehand.classifyReply snapshot (model (i + 1)) <;>
        exact Nat.le_refl _

/-- Witness for C6: a model that explicitly reports no match is surfaced
immediately after one call, and a model that always replies malformed
surfaces `groundingParseError` after exactly two calls. -/
theorem grounding_retry_policy_witness :
    Stagehand.groundAction "click x" ⟨[], 0, false⟩ none
      (fun _ => Stagehand.ModelReply.noMatch) 0
      = (.error .groundingNoMatch, 1) ∧
    (Stagehand.groundAction "click x" ⟨[], 0, false⟩ none
      (fun _ => Stagehand.ModelReply.malformed) 0).2 = 2 := by
  constructor
  · exact (grounding_retry_policy "click x" ⟨[], 0, false⟩ none
      (fun _ => Stagehand.ModelReply.noMatch) 0).1 rfl
  · exact (grounding_retry_policy "click x" ⟨[], 0, false⟩ none
      (fun _ => Stagehand.ModelReply.malformed) 0).2.1 rfl

namespace Stagehand

theorem validatePayload_missing (p : Payload) (schema : Schema)
    (f : String × FieldType) (hf : f ∈ schema)
    (hmiss : lookupField p f.1 = none) :
    validatePayload p schema = false := by
  rw [validatePayload, List.all_eq_false]
  refine ⟨f, hf, ?_⟩
  rw [validateField, hmiss]
  simp

end Stagehand

/-- Claim C5: every payload returned by extract validates fully against
the schema (no partial result is representable), and when both the
original and the retried model response omit a required field of the
schema, extract surfaces `extractionValidationError`. -/
theorem extraction_validates (query : String)
    (snapshot : Stagehand.PageSnapshot) (schema : Stagehand.Schema)
    (model : Nat → Stagehand.Payload) (i : Nat) :
    (∀ r n, Stagehand.extract query snapshot schema model i = (.ok r, n) →
      Stagehand.validatePayload r schema = true) ∧
    (∀ f, f ∈ schema →
      Stagehand.lookupField (model i) f.1 = none →
      Stagehand.lookupField (model (i + 1)) f.1 = none →
      Stagehand.extract query snapshot schema model i
        = (.error .extractionValidationError, i + 2)) := by
  constructor
  · intro r n h
    simp only [Stagehand.extract] at h
    by_cases h0 : Stagehand.validatePayload (model i) schema = true
    · rw [if_pos h0] at h
      simp at h
      rw [← h.1]
      exact h0
    · rw [if_neg h0] at h
      by_cases h1 : Stagehand.validatePayload (model (i + 1)) schema = true
      · rw [if_pos h1] at h
        simp at h
        rw [← h.1]
        exact h1
      · rw [if_neg h1] at h
        simp at h
  · intro f hf hm0 hm1
    have h0 := Stagehand.validatePayload_missing (model i) schema f hf hm0
    have h1 := Stagehand.validatePayload_missing (model (i + 1)) schema f hf hm1
    simp only [Stagehand.extract]
    rw [h0, h1]
    simp

/-- Witness for C5: under schema {title: string, points: int}, a model
response carrying only the title — on the first call and on the retry —
yields `extractionValidationError`. -/
theorem extraction_validates_witness :
    Stagehand.extract "find all the posts related to AI" ⟨[], 0, false⟩
      [("title", .stringTy), ("points", .intTy)]
      (fun _ => [("title", .strVal "Show HN: AI toolkit")]) 0
      = (.error .extractionValidationError, 2) := by
  exact (extraction_validates "find all the posts related to AI" ⟨[], 0, false⟩
    [("title", .stringTy), ("points", .intTy)]
    (fun _ => [("title", .strVal "Show HN: AI toolkit")]) 0).2
    ("points", .intTy) (by decide) rfl rfl

/-- Claim C7: expiry of the configured settle window — including a settle
timeout configured to 0 — is not an error: when a responsive page has at
least one qualifying node and the settle window has expired, capture
still returns a snapshot, marked unsettled, rather than failing. -/
theorem capture_settle_expiry_not_error (cfg : Stagehand.Config)
    (page : Stagehand.Page) (gen : Nat)
    (hresp : page.responsive = true)
    (hq : page.nodes.filter Stagehand.qualifies ≠ [])
    (hexp : cfg.settleTimeoutMs ≤ page.settleAfterMs) :
    ∃ snap, Stagehand.capture cfg page gen = .ok snap ∧
      snap.unsettled = true := by
  refine ⟨⟨((page.nodes.filter Stagehand.qualifies).map
    Stagehand.toElement).take cfg.maxElements, gen, true⟩, ?_, rfl⟩
  have h2 : ¬ (page.settleAfterMs < cfg.settleTimeoutMs) := Nat.not_lt.mpr hexp
  simp [Stagehand.capture, hresp, hq, h2]

/-- Witness for C7: with settle timeout 0 on a one-button page, capture
returns a snapshot with unsettled = true. -/
theorem capture_settle_expiry_not_error_witness :
    ∃ snap, Stagehand.capture ⟨0, 5000, 1, 100⟩
      ⟨"https://techstore.test", [⟨1, "button", "Search", "", "", [], false,
        false⟩], 0, true⟩ 0 = .ok snap ∧ snap.unsettled = true := by
  exact capture_settle_expiry_not_error ⟨0, 5000, 1, 100⟩
    ⟨"https://techstore.test", [⟨1, "button", "Search", "", "", [], false,
      false⟩], 0, true⟩ 0 rfl (by decide) (Nat.zero_le 0)

/-- Claim C8: on a responsive page, capture fails with `snapshotEmpty`
exactly when the page has zero qualifying nodes; and whenever at least one
qualifying node exists, capture never raises `snapshotEmpty` (responsive
or not). -/
theorem capture_snapshotEmpty_iff (cfg : Stagehand.Config)
    (page : Stagehand.Page) (gen : Nat) :
    (page.responsive = true →
      (Stagehand.capture cfg page gen = .error .snapshotEmpty ↔
        page.nodes.filter Stagehand.qualifies = [])) ∧
    (page.nodes.filter Stagehand.qualifies ≠ [] →
      Stagehand.capture cfg page gen ≠ .error .snapshotEmpty) := by
  constructor
  · intro hresp
    by_cases he : page.nodes.filter Stagehand.qualifies = []
    · simp [Stagehand.capture, hresp, he]
    · simp [Stagehand.capture, hresp, he]
  · intro hne
    by_cases hresp : page.responsive = true
    · simp [Stagehand.capture, hresp, hne]
    · have : page.responsive = false := by
        cases hb : page.responsive
        · rfl
        · exact absurd hb hresp
      simp [Stagehand.capture, this]

/-- Witness for C8: a page whose only node is a bare generic container
(role off the allow-list, empty text) yields `snapshotEmpty`; the
one-button page does not. -/
theorem capture_snapshotEmpty_iff_witness :
    Stagehand.capture ⟨1000, 5000, 1, 100⟩
      ⟨"https://techstore.test", [⟨1, "generic", "", "", "", [], false,
        false⟩], 0, true⟩ 0 = .error .snapshotEmpty ∧
    Stagehand.capture ⟨1000, 5000, 1, 100⟩
      ⟨"https://techstore.test", [⟨1, "button", "Search", "", "", [], false,
        false⟩], 0, true⟩ 0 ≠ .error .snapshotEmpty := by
  constructor
  · exact ((capture_snapshotEmpty_iff ⟨1000, 5000, 1, 100⟩
      ⟨"https://techstore.test", [⟨1, "generic", "", "", "", [], false,
        false⟩], 0, true⟩ 0).1 rfl).mpr (by decide)
  · exact (capture_snapshotEmpty_iff ⟨1000, 5000, 1, 100⟩
      ⟨"https://techstore.test", [⟨1, "button", "Search", "", "", [], false,
        false⟩], 0, true⟩ 0).2 (by decide)

namespace Stagehand

theorem cacheLookup_insert (c : CacheStore) (k : CacheKey) (e : CacheEntry) :
    cacheLookup (cacheInsert c k e) k = some e := by
  simp [cacheLookup, cacheInsert]

theorem groundAndExecute_ok (cfg : Config) (instruction : String)
    (priorFailure : Option Err) (page : Page) (model : Nat → ModelReply)
    (i gen : Nat) (p : ActionPlan) (er : ExecutionResult) (j : Nat)
    (h : groundAndExecute cfg instruction priorFailure page model i gen
      = (.ok (p, er), j)) :
    execute cfg p page = .ok er := by
  unfold groundAndExecute at h
  split at h
  · simp at h
  · split at h
    · simp at h
    · split at h
      · simp at h
      · simp only [Prod.mk.injEq, Except.ok.injEq] at h
        obtain ⟨⟨h1, h2⟩, -⟩ := h
        subst h1
        subst h2
        assumption

theorem selfHeal_ok (cfg : Config) (instruction : String) (page : Page)
    (model : Nat → ModelReply) :
    ∀ (budget : Nat) (u : Err) (i gen : Nat) (p : ActionPlan)
      (er : ExecutionResult) (j a : Nat),
    selfHeal cfg instruction page model u budget i gen = (.ok (p, er), j, a) →
    execute cfg p page = .ok er := by
  intro budget
  induction budget with
  | zero =>
    intro u i gen p er j a h
    simp [selfHeal] at h
  | succ b ih =>
    intro u i gen p er j a h
    rw [selfHeal] at h
    split at h
    · rename_i r k heq
      simp only [Prod.mk.injEq, Except.ok.injEq] at h
      obtain ⟨h1, -⟩ := h
      subst h1
      exact groundAndExecute_ok cfg instruction (some u) page model i gen
        p er k heq
    · rename_i k heq
      simp only [] at h
      rcases hs : selfHeal cfg instruction page model .elementNotFound b k
        (gen + 1) with ⟨res2, rest2⟩
      rw [hs] at h
      simp only [Prod.mk.injEq] at h
      obtain ⟨h1, -⟩ := h
      rw [h1] at hs
      exact ih .elementNotFound k (gen + 1) p er rest2.1 rest2.2 hs
    · simp at h

theorem selfHeal_attempts (cfg : Config) (instruction : String) (page : Page)
    (model : Nat → ModelReply) :
    ∀ (budget : Nat) (u : Err) (i gen : Nat),
    (selfHeal cfg instruction page model u budget i gen).2.2 ≤ budget := by
  intro budget
  induction budget with
  | zero =>
    intro u i gen
    simp [selfHeal]
  | succ b ih =>
    intro u i gen
    rw [selfHeal]
    split
    · exact Nat.succ_le_succ (Nat.zero_le b)
    · rename_i k heq
      exact Nat.succ_le_succ (ih .elementNotFound k (gen + 1))
    · exact Nat.succ_le_succ (Nat.zero_le b)

theorem resolve_of_miss (cfg : Config) (cache : CacheStore)
    (instruction : String) (page : Page) (model : Nat → ModelReply)
    (i now gen : Nat)
    (hmiss : cacheLookup cache (pageSignature page, instruction) = none) :
    resolve cfg cache instruction page model i now gen
      = resolveMiss cfg cache instruction page model i now gen := by
  unfold resolve
  rw [hmiss]

theorem resolve_of_hit (cfg : Config) (cache : CacheStore)
    (instruction : String) (page : Page) (model : Nat → ModelReply)
    (i now gen : Nat) (entry : CacheEntry)
    (hhit : cacheLookup cache (pageSignature page, instruction) = some entry) :
    resolve cfg cache instruction page model i now gen
      = resolveHit cfg cache instruction page model i now gen entry := by
  unfold resolve
  rw [hhit]

theorem resolveHit_exec_ok (cfg : Config) (cache : CacheStore)
    (instruction : String) (page : Page) (model : Nat → ModelReply)
    (i now gen : Nat) (entry : CacheEntry) (er : ExecutionResult)
    (hexec : execute cfg entry.plan page = .ok er) :
    resolveHit cfg cache instruction page model i now gen entry
      = ⟨.ok (entry.plan, er),
         cacheInsert cache (pageSignature page, instruction)
           ⟨entry.plan, entry.hits + 1, now⟩, i, 0⟩ := by
  unfold resolveHit
  rw [hexec]

theorem resolveMiss_ok (cfg : Config) (cache : CacheStore)
    (instruction : String) (page : Page) (model : Nat → ModelReply)
    (i now gen : Nat) (p : ActionPlan) (er : ExecutionResult)
    (h : (resolveMiss cfg cache instruction page model i now gen).result
      = .ok (p, er)) :
    execute cfg p page = .ok er ∧
    (resolveMiss cfg cache instruction page model i now gen).cache
      = cacheInsert cache (pageSignature page, instruction) ⟨p, 0, now⟩ := by
  unfold resolveMiss at h ⊢
  split at h
  · rename_i plan er2 i2 heq
    simp only [Except.ok.injEq, Prod.mk.injEq] at h
    obtain ⟨h1, h2⟩ := h
    subst h1
    subst h2
    refine ⟨groundAndExecute_ok cfg instruction none page model i gen
      _ _ _ heq, ?_⟩
    rfl
  · rename_i i2 heq
    split at h
    · rename_i plan er2 i3 a3 heq2
      simp only [Except.ok.injEq, Prod.mk.injEq] at h
      obtain ⟨h1, h2⟩ := h
      subst h1
      subst h2
      refine ⟨selfHeal_ok cfg instruction page model _ _ _ _ _ _ _ _ heq2, ?_⟩
      rfl
    · simp at h
  · simp at h

theorem resolveMiss_error (cfg : Config) (cache : CacheStore)
    (instruction : String) (page : Page) (model : Nat → ModelReply)
    (i now gen : Nat) (e : Err)
    (h : (resolveMiss cfg cache instruction page model i now gen).result
      = .error e) :
    (resolveMiss cfg cache instruction page model i now gen).cache
      = cache := by
  unfold resolveMiss at h ⊢
  split at h
  · simp at h
  · rename_i i2 heq
    split at h
    · simp at h
    · rename_i e2 i3 a3 heq2
      rfl
  · rename_i e2 i2 heq hne
    rfl

theorem resolveHit_attempts (cfg : Config) (cache : CacheStore)
    (instruction : String) (page : Page) (model : Nat → ModelReply)
    (i now gen : Nat) (entry : CacheEntry) :
    (resolveHit cfg cache instruction page model i now gen
      entry).groundingAttempts ≤ cfg.maxSelfHealRetries := by
  unfold resolveHit
  split
  · exact Nat.zero_le _
  · split
    · rename_i plan er2 i2 a2 heq2
      have hb := selfHeal_attempts cfg instruction page model
        cfg.maxSelfHealRetries .elementNotFound i gen
      rw [heq2] at hb
      exact hb
    · rename_i e2 i2 a2 heq2
      have hb := selfHeal_attempts cfg instruction page model
        cfg.maxSelfHealRetries .elementNotFound i gen
      rw [heq2] at hb
      exact hb
  · exact Nat.zero_le _

theorem resolveMiss_attempts (cfg : Config) (cache : CacheStore)
    (instruction : String) (page : Page) (model : Nat → ModelReply)
    (i now gen : Nat) :
    (resolveMiss cfg cache instruction page model i now
      gen).groundingAttempts ≤ 1 + cfg.maxSelfHealRetries := by
  unfold resolveMiss
  split
  · exact Nat.le_add_right 1 _
  · rename_i i2 heq
    split
    · rename_i plan er2 i3 a3 heq2
      have hb := selfHeal_attempts cfg instruction page model
        cfg.maxSelfHealRetries .elementNotFound i2 (gen + 1)
      rw [heq2] at hb
      calc a3 + 1 ≤ cfg.maxSelfHealRetries + 1 := Nat.succ_le_succ hb
        _ = 1 + cfg.maxSelfHealRetries := Nat.add_comm _ _
    · rename_i e2 i3 a3 heq2
      have hb := selfHeal_attempts cfg instruction page model
        cfg.maxSelfHealRetries .elementNotFound i2 (gen + 1)
      rw [heq2] at hb
      calc a3 + 1 ≤ cfg.maxSelfHealRetries + 1 := Nat.succ_le_succ hb
        _ = 1 + cfg.maxSelfHealRetries := Nat.add_comm _ _
  · exact Nat.le_add_right 1 _

theorem resolve_attempts_le (cfg : Config) (cache : CacheStore)
    (instruction : String) (page : Page) (model : Nat → ModelReply)
    (i now gen : Nat) :
    (resolve cfg cache instruction page model i now gen).groundingAttempts
      ≤ 1 + cfg.maxSelfHealRetries := by
  unfold resolve
  split
  · rename_i entry heq
    exact Nat.le_trans
      (resolveHit_attempts cfg cache instruction page model i now gen entry)
      (Nat.le_add_left _ _)
  · exact resolveMiss_attempts cfg cache instruction page model i now gen

theorem selfHeal_one_exhausts (cfg : Config) (instruction : String)
    (page : Page) (model : Nat → ModelReply) (u : Err) (i gen j : Nat)
    (hg : groundAndExecute cfg instruction (some u) page model i gen
      = (.error .elementNotFound, j)) :
    selfHeal cfg instruction page model u 1 i gen
      = (.error (.selfHealExhausted .elementNotFound), j, 1) := by
  rw [show (1 : Nat) = 0 + 1 from rfl, selfHeal, hg]
  rfl

end Stagehand

/-- Claim C2: calling resolve twice with an unchanged page and identical
instruction issues exactly one model-client call in total: when the first
call is a cache miss that succeeds using exactly one model call, the
second call finds the stored entry keyed by (page signature, instruction),
executes it directly — zero further model calls, zero grounding attempts —
and returns the same plan and result. -/
theorem resolve_idempotent_one_model_call (cfg : Stagehand.Config)
    (cache : Stagehand.CacheStore) (instruction : String)
    (page : Stagehand.Page) (model : Nat → Stagehand.ModelReply)
    (i now1 now2 gen1 gen2 : Nat) (p : Stagehand.ActionPlan)
    (er : Stagehand.ExecutionResult)
    (hmiss : Stagehand.cacheLookup cache
      (Stagehand.pageSignature page, instruction) = none)
    (h1 : (Stagehand.resolve cfg cache instruction page model i now1
      gen1).result = .ok (p, er))
    (hone : (Stagehand.resolve cfg cache instruction page model i now1
      gen1).nextCall = i + 1) :
    (Stagehand.resolve cfg
      (Stagehand.resolve cfg cache instruction page model i now1 gen1).cache
      instruction page model
      (Stagehand.resolve cfg cache instruction page model i now1 gen1).nextCall
      now2 gen2).result = .ok (p, er) ∧
    (Stagehand.resolve cfg
      (Stagehand.resolve cfg cache instruction page model i now1 gen1).cache
      instruction page model
      (Stagehand.resolve cfg cache instruction page model i now1 gen1).nextCall
      now2 gen2).nextCall = i + 1 ∧
    (Stagehand.resolve cfg
      (Stagehand.resolve cfg cache instruction page model i now1 gen1).cache
      instruction page model
      (Stagehand.resolve cfg cache instruction page model i now1 gen1).nextCall
      now2 gen2).groundingAttempts = 0 := by
  have hr := Stagehand.resolve_of_miss cfg cache instruction page model
    i now1 gen1 hmiss
  rw [hr] at h1 hone
  have hm := Stagehand.resolveMiss_ok cfg cache instruction page model
    i now1 gen1 p er h1
  rw [hr, hm.2, hone]
  rw [Stagehand.resolve_of_hit cfg _ instruction page model _ now2 gen2
    ⟨p, 0, now1⟩ (Stagehand.cacheLookup_insert cache _ ⟨p, 0, now1⟩)]
  rw [Stagehand.resolveHit_exec_ok cfg _ instruction page model _ now2 gen2
    ⟨p, 0, now1⟩ er hm.1]
  exact ⟨rfl, rfl, rfl⟩

/-- Witness for C2: a one-button page, an empty cache, and a model
proposing a click on the button: the first resolve uses one model call and
stores the plan; the second resolve returns the same plan from the cache. -/
theorem resolve_idempotent_one_model_call_witness :
    (Stagehand.resolve Stagehand.defaultConfig
      (Stagehand.resolve Stagehand.defaultConfig [] "click the search button"
        ⟨"https://techstore.test",
         [⟨1, "button", "Search", "", "", [], false, false⟩], 0, true⟩
        (fun _ => .proposal 1 .click .noArgs) 0 5 0).cache
      "click the search button"
      ⟨"https://techstore.test",
       [⟨1, "button", "Search", "", "", [], false, false⟩], 0, true⟩
      (fun _ => .proposal 1 .click .noArgs)
      (Stagehand.resolve Stagehand.defaultConfig [] "click the search button"
        ⟨"https://techstore.test",
         [⟨1, "button", "Search", "", "", [], false, false⟩], 0, true⟩
        (fun _ => .proposal 1 .click .noArgs) 0 5 0).nextCall
      6 1).result = .ok (⟨1, .click, .noArgs, 0⟩, ⟨false⟩) := by
  exact (resolve_idempotent_one_model_call Stagehand.defaultConfig []
    "click the search button"
    ⟨"https://techstore.test",
     [⟨1, "button", "Search", "", "", [], false, false⟩], 0, true⟩
    (fun _ => .proposal 1 .click .noArgs) 0 5 6 0 1
    ⟨1, .click, .noArgs, 0⟩ ⟨false⟩ rfl rfl rfl).1

/-- Claim C3: with the default configuration (one self-heal attempt), a
resolve call makes at most two grounding attempts in total; on a cache hit
at most one grounding attempt occurs after the `elementNotFound` of the
cached plan; and when that one permitted re-grounding round itself ends in
`elementNotFound`, the call surfaces `selfHealExhausted` — the retry state
machine never loops beyond this bound. -/
theorem self_heal_bounded (cache : Stagehand.CacheStore)
    (instruction : String) (page : Stagehand.Page)
    (model : Nat → Stagehand.ModelReply) (i now gen : Nat) :
    (Stagehand.resolve Stagehand.defaultConfig cache instruction page model
      i now gen).groundingAttempts ≤ 2 ∧
    (∀ entry, Stagehand.cacheLookup cache
        (Stagehand.pageSignature page, instruction) = some entry →
      (Stagehand.resolve Stagehand.defaultConfig cache instruction page
        model i now gen).groundingAttempts ≤ 1) ∧
    (∀ entry j, Stagehand.cacheLookup cache
        (Stagehand.pageSignature page, instruction) = some entry →
      Stagehand.execute Stagehand.defaultConfig entry.plan page
        = .error .elementNotFound →
      Stagehand.groundAndExecute Stagehand.defaultConfig instruction
        (some .elementNotFound) page model i gen
        = (.error .elementNotFound, j) →
      (Stagehand.resolve Stagehand.defaultConfig cache instruction page
        model i now gen).result
        = .error (.selfHealExhausted .elementNotFound)) := by
  refine ⟨?_, ?_, ?_⟩
  · exact Stagehand.resolve_attempts_le Stagehand.defaultConfig cache
      instruction page model i now gen
  · intro entry hhit
    rw [Stagehand.resolve_of_hit Stagehand.defaultConfig cache instruction
      page model i now gen entry hhit]
    exact Stagehand.resolveHit_attempts Stagehand.defaultConfig cache
      instruction page model i now gen entry
  · intro entry j hhit hexec hg
    rw [Stagehand.resolve_of_hit Stagehand.defaultConfig cache instruction
      page model i now gen entry hhit]
    unfold Stagehand.resolveHit
    rw [hexec, show Stagehand.defaultConfig.maxSelfHealRetries = 1 from rfl,
      Stagehand.selfHeal_one_exhausts Stagehand.defaultConfig instruction
        page model .elementNotFound i gen j hg]

/-- Witness for C3: a cached plan for a button whose live locate fails;
the single self-heal re-grounding also ends at the detached button, so the
call surfaces `selfHealExhausted`. -/
theorem self_heal_bounded_witness :
    (Stagehand.resolve Stagehand.defaultConfig
      [((Stagehand.pageSignature ⟨"https://techstore.test",
          [⟨1, "button", "Search", "", "", [], true, false⟩], 0, true⟩,
         "click the search button"),
        ⟨⟨1, .click, .noArgs, 0⟩, 3, 0⟩)]
      "click the search button"
      ⟨"https://techstore.test",
       [⟨1, "button", "Search", "", "", [], true, false⟩], 0, true⟩
      (fun _ => .proposal 1 .click .noArgs) 0 9 0).result
      = .error (.selfHealExhausted .elementNotFound) := by
  exact (self_heal_bounded
    [((Stagehand.pageSignature ⟨"https://techstore.test",
        [⟨1, "button", "Search", "", "", [], true, false⟩], 0, true⟩,
       "click the search button"),
      ⟨⟨1, .click, .noArgs, 0⟩, 3, 0⟩)]
    "click the search button"
    ⟨"https://techstore.test",
     [⟨1, "button", "Search", "", "", [], true, false⟩], 0, true⟩
    (fun _ => .proposal 1 .click .noArgs) 0 9 0).2.2
    ⟨⟨1, .click, .noArgs, 0⟩, 3, 0⟩ 1 rfl rfl rfl

/-- Claim C4: on a cache miss, resolve stores a new entry only after the
grounded plan has executed successfully; when the call fails, the cache
store is exactly as it was found, so a stored plan has always executed
successfully at least once. -/
theorem resolve_miss_cache_contract (cfg : Stagehand.Config)
    (cache : Stagehand.CacheStore) (instruction : String)
    (page : Stagehand.Page) (model : Nat → Stagehand.ModelReply)
    (i now gen : Nat)
    (hmiss : Stagehand.cacheLookup cache
      (Stagehand.pageSignature page, instruction) = none) :
    (∀ e, (Stagehand.resolve cfg cache instruction page model i now
        gen).result = .error e →
      (Stagehand.resolve cfg cache instruction page model i now gen).cache
        = cache) ∧
    (∀ p er, (Stagehand.resolve cfg cache instruction page model i now
        gen).result = .ok (p, er) →
      Stagehand.execute cfg p page = .ok er ∧
      (Stagehand.resolve cfg cache instruction page model i now gen).cache
        = Stagehand.cacheInsert cache
            (Stagehand.pageSignature page, instruction) ⟨p, 0, now⟩) := by
  rw [Stagehand.resolve_of_miss cfg cache instruction page model i now gen
    hmiss]
  exact ⟨fun e he => Stagehand.resolveMiss_error cfg cache instruction page
      model i now gen e he,
    fun p er h => Stagehand.resolveMiss_ok cfg cache instruction page model
      i now gen p er h⟩

/-- Witness for C4: a model that reports no matching element makes the
miss-path resolve fail, and the cache is left empty as found. -/
theorem resolve_miss_cache_contract_witness :
    (Stagehand.resolve Stagehand.defaultConfig [] "click the search button"
      ⟨"https://techstore.test",
       [⟨1, "button", "Search", "", "", [], false, false⟩], 0, true⟩
      (fun _ => Stagehand.ModelReply.noMatch) 0 0 0).cache = [] := by
  exact (resolve_miss_cache_contract Stagehand.defaultConfig []
    "click the search button"
    ⟨"https://techstore.test",
     [⟨1, "button", "Search", "", "", [], false, false⟩], 0, true⟩
    (fun _ => Stagehand.ModelReply.noMatch) 0 0 0 rfl).1
    .groundingNoMatch rfl
